import Mathlib

/-!
Shallow embedding of the ticket-reservation and check-in core of the
Eventix ticket-booking backend (Go / Fiber / GORM / Redis).

The embedding translates, from the source:
  * the data model of internal/models (ticket tiers, tickets, orders,
    payments, check-ins) and the Redis reservation ledger entries of
    internal/services/ticket_service.go;
  * the TicketService operations CreateReservation, GetReservation,
    DeleteReservation, CreateTicketsFromOrder, ProcessOrderPayment,
    ValidateTicketForCheckin, CheckInTicket;
  * the HTTP handlers ReserveTicketHandler, CreateOrderHandler and
    ValidateQRCodeHandler of cmd/api/handlers.go, which inline their own
    copies of the reservation / check-in logic;
  * the model helper TicketTier.IsAvailable of internal/models/user.go;
  * the utils helpers GenerateQRCode, GenerateReservationID,
    CalculateTotalPrice, ReservationExpirySeconds.

Modelling conventions:
  * uuid.UUID values and Redis string keys are modelled as Nat; uuid.New /
    GenerateReservationID freshness is modelled by a monotone counter
    `nextID` carried in the state (random identifiers never collide with
    live ones, which is what collision-resistant 128-bit generation is
    for).  GenerateQRCode embeds the fresh ticket id plus a timestamp and
    random suffix; its collision-freedom is modelled by the freshness of
    the ticket id it is derived from.
  * float64 prices are modelled as Int: none of the verified properties
    exercises rounding, only the product price * quantity.
  * time.Time instants are modelled as Nat seconds and `time.Now()` is an
    explicit `now` argument of each operation that reads the clock.
  * the PostgreSQL store and the Redis ledger are one explicit DBState
    record; infrastructure calls succeed (the single fallible call whose
    failure the claims mention, the batch insert of CreateTicketsFromOrder,
    takes an explicit success flag).  Operations whose Go error paths
    perform no write are `Except`-valued: an `.error` result means the
    state is unchanged.  CheckInTicket, whose second write can fail after
    the first one committed, returns the state separately.
-/

namespace Eventix

/-- Event lifecycle status (internal/models/user.go, EventStatus). -/
inductive EventStatus
  | draft
  | underReview
  | published
  | activeEv
  | completed
  | cancelledEv
  deriving DecidableEq

/-- Ticket lifecycle status (internal/models in the ticket models file,
TicketStatus: reserved, active, used, cancelled, refunded). -/
inductive TicketStatus
  | reserved
  | active
  | used
  | cancelled
  | refunded
  deriving DecidableEq

/-- Order status (OrderStatus in the ticket models file). -/
inductive OrderStatus
  | pending
  | paid
  | failedOrd
  | cancelledOrd
  | refundedOrd
  deriving DecidableEq

/-- Payment status (PaymentStatus in the ticket models file). -/
inductive PaymentStatus
  | pending
  | authorized
  | processing
  | completed
  | failedPay
  | refunding
  | refundedPay
  deriving DecidableEq

/-- Event row: only the fields the verified operations read
(internal/models/user.go, Event). -/
structure Event where
  id : Nat
  status : EventStatus
  deriving DecidableEq

/-- TicketTier row (internal/models/user.go, TicketTier).  Quantities are
Go ints, hence Int here. -/
structure TicketTier where
  id : Nat
  eventID : Nat
  price : Int
  totalQuantity : Int
  availableQuantity : Int
  saleStartTime : Option Nat
  saleEndTime : Option Nat
  deriving DecidableEq

/-- Ticket row (Ticket in the ticket models file). -/
structure Ticket where
  id : Nat
  tierID : Nat
  orderID : Nat
  ownerID : Nat
  qrCode : Nat
  status : TicketStatus
  checkedInAt : Option Nat
  deriving DecidableEq

/-- Checkin audit row (Checkin in the ticket models file).  The table has a
unique index on ticket_id. -/
structure Checkin where
  ticketID : Nat
  eventID : Nat
  scannedBy : Nat
  scannedAt : Nat
  deriving DecidableEq

/-- Order row (Order in the ticket models file). -/
structure Order where
  id : Nat
  userID : Nat
  totalAmount : Int
  status : OrderStatus
  deriving DecidableEq

/-- Payment row (Payment in the ticket models file). -/
structure Payment where
  orderID : Nat
  amount : Int
  status : PaymentStatus
  paidAt : Option Nat
  deriving DecidableEq

/-- ReservationData, the Redis reservation-ledger entry
(internal/services/ticket_service.go lines 19-29). -/
structure ReservationData where
  reservationID : Nat
  userID : Nat
  tierID : Nat
  eventID : Nat
  quantity : Int
  unitPrice : Int
  totalPrice : Int
  expiresAt : Nat
  createdAt : Nat
  deriving DecidableEq

/-- The combined persistent state: the PostgreSQL tables plus the Redis
reservation ledger, with the fresh-identifier counter that models uuid.New
and GenerateReservationID. -/
structure DBState where
  events : List Event
  tiers : List TicketTier
  tickets : List Ticket
  checkins : List Checkin
  orders : List Order
  payments : List Payment
  reservations : List ReservationData
  nextID : Nat
  deriving DecidableEq

/-- Service-level failures, one constructor per distinct error return of
ticket_service.go and of the fallible store calls the claims mention. -/
inductive SvcError
  | tierNotFound
  | insufficientInventory (available : Int)
  | eventNotAvailable
  | reservationNotFound
  | orderNotFound
  | createFailed
  deriving DecidableEq

deriving instance DecidableEq for Except

/-- utils.ReservationExpirySeconds: 15 minutes (unnamed utils file). -/
def reservationExpirySeconds : Nat := 15 * 60

/-- utils.CalculateTotalPrice: price * quantity. -/
def calculateTotalPrice (price : Int) (quantity : Int) : Int :=
  price * quantity

/-- utils.GenerateQRCode: TICKET-{uuid-prefix}-{timestamp}-{random}.  The
code is a high-entropy token derived from the fresh ticket id; its
uniqueness is modelled by that freshness (see the header comment). -/
def generateQRCode (ticketID : Nat) : Nat :=
  ticketID

/-- Status of the event a tier points at.  CreateReservation preloads
tier.Event; a missing event row preloads as the zero value, whose status
is not `published`, modelled by the `draft` default. -/
def eventStatusOf (st : DBState) (eventID : Nat) : EventStatus :=
  match st.events.find? (fun e => e.id == eventID) with
  | some e => e.status
  | none => .draft

/-- TicketTier.IsAvailable (internal/models/user.go lines 186-203):
quantity positive, and `now` inside the optional sale window. -/
def TicketTier.isAvailable (t : TicketTier) (now : Nat) : Bool :=
  if t.availableQuantity ≤ 0 then false
  else if (match t.saleStartTime with
           | some s => decide (now < s)
           | none => false) then false
  else if (match t.saleEndTime with
           | some e => decide (e < now)
           | none => false) then false
  else true

/-- TicketService.CreateReservation (ticket_service.go lines 40-88): load
the tier (with its event), reject if availableQuantity < quantity, reject
if the event is not published, then write the ledger entry to Redis and
save the decremented tier.  No sale-window check and no lower bound on
`quantity` appear on this path. -/
def createReservation (st : DBState) (userID tierID : Nat) (quantity : Int)
    (now : Nat) : Except SvcError (ReservationData × DBState) :=
  match st.tiers.find? (fun t => t.id == tierID) with
  | none => .error .tierNotFound
  | some tier =>
    if tier.availableQuantity < quantity then
      .error (.insufficientInventory tier.availableQuantity)
    else if eventStatusOf st tier.eventID ≠ EventStatus.published then
      .error .eventNotAvailable
    else
      let r : ReservationData :=
        { reservationID := st.nextID
          userID := userID
          tierID := tierID
          eventID := tier.eventID
          quantity := quantity
          unitPrice := tier.price
          totalPrice := calculateTotalPrice tier.price quantity
          expiresAt := now + reservationExpirySeconds
          createdAt := now }
      let st1 : DBState :=
        { st with
            reservations := st.reservations ++ [r]
            nextID := st.nextID + 1 }
      let st2 : DBState :=
        { st1 with
            tiers := st1.tiers.map (fun t =>
              if t.id == tierID then
                { t with availableQuantity := t.availableQuantity - quantity }
              else t) }
      .ok (r, st2)

/-- TicketService.GetReservation (ticket_service.go lines 91-106): Redis
GET of the ledger entry. -/
def getReservation (st : DBState) (reservationID : Nat) :
    Except SvcError ReservationData :=
  match st.reservations.find? (fun r => r.reservationID == reservationID) with
  | none => .error .reservationNotFound
  | some r => .ok r

/-- TicketService.DeleteReservation (ticket_service.go lines 109-128):
read the ledger entry — returning its not-found error when the entry is
gone (`return err // Already expired or not found`) — then UPDATE the tier
row with available_quantity + quantity and DEL the Redis key. -/
def deleteReservation (st : DBState) (reservationID : Nat) :
    Except SvcError DBState :=
  match getReservation st reservationID with
  | .error e => .error e
  | .ok r =>
    let st1 : DBState :=
      { st with
          tiers := st.tiers.map (fun t =>
            if t.id == r.tierID then
              { t with availableQuantity := t.availableQuantity + r.quantity }
            else t) }
    .ok { st1 with
            reservations :=
              st1.reservations.filter (fun x => x.reservationID != reservationID) }

/-- Redis key expiry: the ledger entries were SET with a 15-minute TTL, so
the store autonomously drops every entry past its deadline. -/
def expireReservations (st : DBState) (now : Nat) : DBState :=
  { st with
      reservations := st.reservations.filter (fun r => decide (now < r.expiresAt)) }

/-- TicketService.CreateTicketsFromOrder (ticket_service.go lines
130-154): build `quantity` tickets, each with a fresh uuid and QR code and
status active, then insert them with a single batch Create.  `dbOk` models
the outcome of that one store call: the batch either persists every row or
fails as a whole. -/
def createTicketsFromOrder (st : DBState) (orderID tierID userID : Nat)
    (quantity : Nat) (dbOk : Bool) : Except SvcError (List Ticket × DBState) :=
  let tickets := (List.range quantity).map (fun i =>
    let ticketID := st.nextID + i
    { id := ticketID
      tierID := tierID
      orderID := orderID
      ownerID := userID
      qrCode := generateQRCode ticketID
      status := TicketStatus.active
      checkedInAt := none : Ticket })
  if dbOk then
    .ok (tickets,
      { st with
          tickets := st.tickets ++ tickets
          nextID := st.nextID + quantity })
  else
    .error .createFailed

/-- TicketService.ProcessOrderPayment (ticket_service.go lines 156-186):
load the order, mark it paid, create a completed payment record.  It never
reads or writes the reservation ledger or the tier quantities. -/
def processOrderPayment (st : DBState) (orderID : Nat) (now : Nat) :
    Except SvcError DBState :=
  match st.orders.find? (fun o => o.id == orderID) with
  | none => .error .orderNotFound
  | some order =>
    let st1 : DBState :=
      { st with
          orders := st.orders.map (fun o =>
            if o.id == orderID then { o with status := OrderStatus.paid } else o) }
    let payment : Payment :=
      { orderID := orderID
        amount := order.totalAmount
        status := PaymentStatus.completed
        paidAt := some now }
    .ok { st1 with payments := st1.payments ++ [payment] }

/-- Event id of the tier a ticket points at.  The check-in paths preload
ticket.Tier; a missing tier row preloads as the zero value whose EventID
is the nil uuid, modelled by 0. -/
def tierEventIDOf (st : DBState) (tierID : Nat) : Nat :=
  match st.tiers.find? (fun t => t.id == tierID) with
  | some t => t.eventID
  | none => 0

/-- Distinct check-in outcomes of the validation paths (service errors of
ValidateTicketForCheckin and the handler responses of
ValidateQRCodeHandler, which branch identically). -/
inductive CheckinResult
  | invalidCode
  | wrongEvent
  | alreadyUsed
  | notActive (s : TicketStatus)
  | success
  deriving DecidableEq

/-- TicketService.ValidateTicketForCheckin (ticket_service.go lines
188-214): look the ticket up by QR code, check the event, then the
already-used status, then that the status is active. -/
def validateTicketForCheckin (st : DBState) (qrCode : Nat) (eventID : Nat) :
    Except CheckinResult Ticket :=
  match st.tickets.find? (fun t => t.qrCode == qrCode) with
  | none => .error .invalidCode
  | some ticket =>
    if tierEventIDOf st ticket.tierID ≠ eventID then .error .wrongEvent
    else if ticket.status = TicketStatus.used then .error .alreadyUsed
    else if ticket.status ≠ TicketStatus.active then
      .error (.notActive ticket.status)
    else .ok ticket

/-- TicketService.CheckInTicket (ticket_service.go lines 216-240): set
status and checked_in_at on the ticket and Save it, then Create the
check-in row.  The two writes are separate statements: when the insert
hits the unique index on checkins.ticket_id, the ticket update has already
been committed, so the state is returned alongside the error. -/
def checkInTicket (st : DBState) (ticket : Ticket) (validatorID eventID : Nat)
    (now : Nat) : Except SvcError Checkin × DBState :=
  let st1 : DBState :=
    { st with
        tickets := st.tickets.map (fun t =>
          if t.id == ticket.id then
            { t with status := TicketStatus.used, checkedInAt := some now }
          else t) }
  let ck : Checkin :=
    { ticketID := ticket.id
      eventID := eventID
      scannedBy := validatorID
      scannedAt := now }
  if st1.checkins.any (fun c => c.ticketID == ticket.id) then
    (.error .createFailed, st1)
  else
    (.ok ck, { st1 with checkins := st1.checkins ++ [ck] })

/-- Outcomes of ReserveTicketHandler (cmd/api/handlers.go lines 667-716). -/
inductive ReserveResult
  | tierMissing
  | unavailable (available : Int)
  | eventNotBookable
  | reserved (reservationID : Nat) (expiresAt : Nat)
  deriving DecidableEq

/-- ReserveTicketHandler (cmd/api/handlers.go lines 667-716): load the
tier, compute `available := TotalQuantity - TotalQuantity -
AvailableQuantity` (line 687, as written in the source), reject when
available < quantity, reject when the event is not published, then mint a
fresh reservation id and return it — without storing any ledger entry and
without touching the tier row. -/
def reserveTicketHandler (st : DBState) (userID tierID : Nat) (quantity : Int)
    (now : Nat) : ReserveResult × DBState :=
  match st.tiers.find? (fun t => t.id == tierID) with
  | none => (.tierMissing, st)
  | some tier =>
    let available := tier.totalQuantity - tier.totalQuantity - tier.availableQuantity
    if available < quantity then (.unavailable available, st)
    else if eventStatusOf st tier.eventID ≠ EventStatus.published then
      (.eventNotBookable, st)
    else
      (.reserved st.nextID (now + reservationExpirySeconds),
       { st with nextID := st.nextID + 1 })

/-- CreateOrderHandler (cmd/api/handlers.go lines 776-812): the request
carries a reservation_id, but the handler never consults the ledger
(`In a real app, validate reservation from cache`); it creates a pending
order with TotalAmount 0 and returns its id. -/
def createOrderHandler (st : DBState) (userID : Nat) (reservationID : Nat) :
    Nat × DBState :=
  let order : Order :=
    { id := st.nextID
      userID := userID
      totalAmount := 0
      status := OrderStatus.pending }
  (order.id,
   { st with
       orders := st.orders ++ [order]
       nextID := st.nextID + 1 })

/-- ValidateQRCodeHandler (cmd/api/handlers.go lines 869-927): the same
four checks as ValidateTicketForCheckin, then `ticket.Status = used` and an
unconditional Save — this path never sets CheckedInAt — followed by a
Create of the check-in row whose error is discarded (line 916), so a
unique-index rejection still reports success. -/
def validateQRCodeHandler (st : DBState) (qrCode eventID scannerID : Nat)
    (now : Nat) : CheckinResult × DBState :=
  match st.tickets.find? (fun t => t.qrCode == qrCode) with
  | none => (.invalidCode, st)
  | some ticket =>
    if tierEventIDOf st ticket.tierID ≠ eventID then (.wrongEvent, st)
    else if ticket.status = TicketStatus.used then (.alreadyUsed, st)
    else if ticket.status ≠ TicketStatus.active then
      (.notActive ticket.status, st)
    else
      (.success,
       { st with
           tickets := st.tickets.map (fun t =>
             if t.id == ticket.id then { t with status := TicketStatus.used }
             else t)
           checkins :=
             if st.checkins.any (fun c => c.ticketID == ticket.id) then
               st.checkins
             else
               st.checkins ++
                 [{ ticketID := ticket.id
                    eventID := eventID
                    scannedBy := scannerID
                    scannedAt := now }] })

/-- Number of check-in rows for one ticket. -/
def checkinCount (st : DBState) (ticketID : Nat) : Nat :=
  (st.checkins.filter (fun c => c.ticketID == ticketID)).length

/-- Quantity held by the outstanding ledger entries of one tier. -/
def sumQty (tierID : Nat) (l : List ReservationData) : Int :=
  l.foldr (fun r acc => (if r.tierID == tierID then r.quantity else 0) + acc) 0

/-- The tier-quantity bound of the specification:
0 <= available_quantity <= total_quantity for every tier. -/
def tierBounds (st : DBState) : Prop :=
  ∀ t ∈ st.tiers, 0 ≤ t.availableQuantity ∧ t.availableQuantity ≤ t.totalQuantity

/-- Admissible initial states: distinct tier ids, tier quantities within
bounds, and an empty reservation ledger. -/
def initOK (st : DBState) : Prop :=
  st.reservations = [] ∧
  (st.tiers.map TicketTier.id).Nodup ∧
  (∀ t ∈ st.tiers, 0 ≤ t.availableQuantity ∧ t.availableQuantity ≤ t.totalQuantity)

/-- States reachable from an admissible initial state by the verified
operations.  Hold creation is constrained to the specification's
`quantity >= 1`; the other operations take arbitrary arguments.  Failing
operations return `.error` without a state, so only successful outcomes
produce transitions. -/
inductive Reachable : DBState → Prop
  | init (st : DBState) (h : initOK st) : Reachable st
  | createRes (st : DBState) (uid tid : Nat) (q : Int) (now : Nat)
      (r : ReservationData) (st' : DBState) (h : Reachable st) (hq : 1 ≤ q)
      (hs : createReservation st uid tid q now = .ok (r, st')) : Reachable st'
  | releaseRes (st : DBState) (rid : Nat) (st' : DBState) (h : Reachable st)
      (hs : deleteReservation st rid = .ok st') : Reachable st'
  | expire (st : DBState) (now : Nat) (h : Reachable st) :
      Reachable (expireReservations st now)
  | issueTickets (st : DBState) (oid tid uid : Nat) (q : Nat) (dbOk : Bool)
      (ts : List Ticket) (st' : DBState) (h : Reachable st)
      (hs : createTicketsFromOrder st oid tid uid q dbOk = .ok (ts, st')) :
      Reachable st'
  | payOrder (st : DBState) (oid : Nat) (now : Nat) (st' : DBState)
      (h : Reachable st) (hs : processOrderPayment st oid now = .ok st') :
      Reachable st'
  | orderHandler (st : DBState) (uid rid : Nat) (h : Reachable st) :
      Reachable (createOrderHandler st uid rid).2
  | reserveHandler (st : DBState) (uid tid : Nat) (q : Int) (now : Nat)
      (h : Reachable st) : Reachable (reserveTicketHandler st uid tid q now).2
  | checkinHandler (st : DBState) (qr eid uid now : Nat) (h : Reachable st) :
      Reachable (validateQRCodeHandler st qr eid uid now).2
  | checkinService (st : DBState) (tk : Ticket) (vid eid now : Nat)
      (h : Reachable st) : Reachable (checkInTicket st tk vid eid now).2

/-- Inductive invariant for the tier-quantity bound: tier and ledger ids
are distinct and below the freshness counter, held quantities are the
spec's `quantity >= 1`, and each tier's available quantity plus its
outstanding holds stays below the total. -/
structure Inv (st : DBState) : Prop where
  tierIdsNodup : (st.tiers.map TicketTier.id).Nodup
  availNonneg : ∀ t ∈ st.tiers, 0 ≤ t.availableQuantity
  availHeldLe : ∀ t ∈ st.tiers,
    t.availableQuantity + sumQty t.id st.reservations ≤ t.totalQuantity
  resQtyPos : ∀ r ∈ st.reservations, 1 ≤ r.quantity
  resIdsNodup : (st.reservations.map ReservationData.reservationID).Nodup
  resIdsLt : ∀ r ∈ st.reservations, r.reservationID < st.nextID

lemma sumQty_nil (tid : Nat) : sumQty tid [] = 0 := rfl

lemma sumQty_cons (tid : Nat) (r : ReservationData) (l : List ReservationData) :
    sumQty tid (r :: l) = (if r.tierID == tid then r.quantity else 0) + sumQty tid l :=
  rfl

lemma sumQty_append (tid : Nat) (l1 l2 : List ReservationData) :
    sumQty tid (l1 ++ l2) = sumQty tid l1 + sumQty tid l2 := by
  induction l1 with
  | nil => simp [sumQty_nil]
  | cons a t ih => simp [sumQty_cons, ih]; ring

lemma sumQty_nonneg (tid : Nat) (l : List ReservationData)
    (h : ∀ r ∈ l, 0 ≤ r.quantity) : 0 ≤ sumQty tid l := by
  induction l with
  | nil => simp [sumQty_nil]
  | cons a t ih =>
    rw [sumQty_cons]
    have ha : 0 ≤ a.quantity := h a (by simp)
    have ht : 0 ≤ sumQty tid t := ih (fun r hr => h r (by simp [hr]))
    have : 0 ≤ (if a.tierID == tid then a.quantity else 0) := by
      split <;> simp [ha]
    omega

lemma sumQty_filter_le (tid : Nat) (l : List ReservationData)
    (p : ReservationData → Bool) (h : ∀ r ∈ l, 0 ≤ r.quantity) :
    sumQty tid (l.filter p) ≤ sumQty tid l := by
  induction l with
  | nil => simp [sumQty_nil]
  | cons a t ih =>
    have ht := ih (fun r hr => h r (by simp [hr]))
    have ha : 0 ≤ (if a.tierID == tid then a.quantity else 0) := by
      split <;> simp [h a (by simp)]
    by_cases hp : p a
    · rw [List.filter_cons_of_pos hp, sumQty_cons, sumQty_cons]
      omega
    · rw [List.filter_cons_of_neg (by simpa using hp), sumQty_cons]
      omega

lemma sumQty_filter_ne (tid rid : Nat) (l : List ReservationData)
    (r : ReservationData)
    (hnd : (l.map ReservationData.reservationID).Nodup)
    (hr : r ∈ l) (hrid : r.reservationID = rid) :
    sumQty tid (l.filter (fun x => x.reservationID != rid)) =
      sumQty tid l - (if r.tierID == tid then r.quantity else 0) := by
  induction l with
  | nil => cases hr
  | cons a t ih =>
    rw [List.map_cons, List.nodup_cons] at hnd
    rcases List.mem_cons.mp hr with hra | hrt
    · subst hra
      rw [List.filter_cons_of_neg (by simp [hrid]), sumQty_cons]
      have hall : t.filter (fun x => x.reservationID != rid) = t := by
        apply List.filter_eq_self.mpr
        intro x hx
        have : x.reservationID ≠ rid := by
          intro hxe
          apply hnd.1
          have hrx : r.reservationID = x.reservationID := by rw [hrid, hxe]
          rw [hrx]
          exact List.mem_map_of_mem _ hx
        simpa using this
      rw [hall]
      omega
    · have hane : a.reservationID ≠ rid := by
        intro hae
        apply hnd.1
        rw [hae, ← hrid]
        exact List.mem_map_of_mem _ hrt
      rw [List.filter_cons_of_pos (by simpa using hane), sumQty_cons, sumQty_cons,
        ih hnd.2 hrt]
      omega

lemma map_tierID_update (l : List TicketTier) (g : TicketTier → TicketTier)
    (hg : ∀ t, (g t).id = t.id) :
    (l.map g).map TicketTier.id = l.map TicketTier.id := by
  induction l with
  | nil => rfl
  | cons a t ih => simp [hg, ih]

lemma tier_eq_of_nodup_ids {l : List TicketTier} {a b : TicketTier}
    (hnd : (l.map TicketTier.id).Nodup) (ha : a ∈ l) (hb : b ∈ l)
    (hid : a.id = b.id) : a = b :=
  List.inj_on_of_nodup_map hnd ha hb hid

lemma inv_frame {st st' : DBState} (h : Inv st) (ht : st'.tiers = st.tiers)
    (hr : st'.reservations = st.reservations) (hn : st.nextID ≤ st'.nextID) :
    Inv st' := by
  constructor
  · rw [ht]; exact h.tierIdsNodup
  · rw [ht]; exact h.availNonneg
  · rw [ht, hr]; exact h.availHeldLe
  · rw [hr]; exact h.resQtyPos
  · rw [hr]; exact h.resIdsNodup
  · rw [hr]; intro r hrm; exact lt_of_lt_of_le (h.resIdsLt r hrm) hn

lemma createReservation_ok_inv {st : DBState} {uid tid : Nat} {q : Int}
    {now : Nat} {r : ReservationData} {st' : DBState}
    (hs : createReservation st uid tid q now = .ok (r, st')) :
    ∃ tier, st.tiers.find? (fun t => t.id == tid) = some tier ∧
      q ≤ tier.availableQuantity ∧
      eventStatusOf st tier.eventID = EventStatus.published ∧
      r = { reservationID := st.nextID, userID := uid, tierID := tid,
            eventID := tier.eventID, quantity := q, unitPrice := tier.price,
            totalPrice := calculateTotalPrice tier.price q,
            expiresAt := now + reservationExpirySeconds, createdAt := now } ∧
      st'.tiers = st.tiers.map (fun t =>
        if t.id == tid then
          { t with availableQuantity := t.availableQuantity - q }
        else t) ∧
      st'.reservations = st.reservations ++ [r] ∧
      st'.nextID = st.nextID + 1 ∧
      st'.events = st.events ∧ st'.tickets = st.tickets ∧
      st'.checkins = st.checkins ∧ st'.orders = st.orders ∧
      st'.payments = st.payments := by
  unfold createReservation at hs
  cases hfind : st.tiers.find? (fun t => t.id == tid) with
  | none => rw [hfind] at hs; exact absurd hs (by simp)
  | some tier =>
    rw [hfind] at hs
    simp only at hs
    split_ifs at hs with h1 h2
    simp only [Except.ok.injEq, Prod.mk.injEq] at hs
    obtain ⟨hr, hst⟩ := hs
    subst hst
    exact ⟨tier, rfl, by omega, by simpa using h2, hr.symm, rfl, by rw [hr],
      rfl, rfl, rfl, rfl, rfl, rfl⟩

lemma getReservation_ok_inv {st : DBState} {rid : Nat} {r : ReservationData}
    (hs : getReservation st rid = .ok r) :
    r ∈ st.reservations ∧ r.reservationID = rid := by
  unfold getReservation at hs
  cases hfind : st.reservations.find? (fun x => x.reservationID == rid) with
  | none => rw [hfind] at hs; exact absurd hs (by simp)
  | some x =>
    rw [hfind] at hs
    simp only [Except.ok.injEq] at hs
    subst hs
    exact ⟨List.mem_of_find?_eq_some hfind, by simpa using List.find?_some hfind⟩

lemma deleteReservation_ok_inv {st : DBState} {rid : Nat} {st' : DBState}
    (hs : deleteReservation st rid = .ok st') :
    ∃ r, getReservation st rid = .ok r ∧
      r ∈ st.reservations ∧ r.reservationID = rid ∧
      st'.tiers = st.tiers.map (fun t =>
        if t.id == r.tierID then
          { t with availableQuantity := t.availableQuantity + r.quantity }
        else t) ∧
      st'.reservations =
        st.reservations.filter (fun x => x.reservationID != rid) ∧
      st'.nextID = st.nextID := by
  unfold deleteReservation at hs
  cases hget : getReservation st rid with
  | error e => rw [hget] at hs; exact absurd hs (by simp)
  | ok r =>
    rw [hget] at hs
    simp only [Except.ok.injEq] at hs
    obtain ⟨hmem, hid⟩ := getReservation_ok_inv hget
    exact ⟨r, rfl, hmem, hid, by rw [← hs], by rw [← hs], by rw [← hs]⟩

lemma inv_createRes {st : DBState} {uid tid : Nat} {q : Int} {now : Nat}
    {r : ReservationData} {st' : DBState} (hI : Inv st) (hq : 1 ≤ q)
    (hs : createReservation st uid tid q now = .ok (r, st')) : Inv st' := by
  obtain ⟨tier, hfind, hge, hpub, hreq, htiers, hres, hnext, -, -, -, -, -⟩ :=
    createReservation_ok_inv hs
  have htmem : tier ∈ st.tiers := List.mem_of_find?_eq_some hfind
  have htid : tier.id = tid := by simpa using List.find?_some hfind
  have hgid : ∀ t : TicketTier,
      ((if t.id == tid then
          { t with availableQuantity := t.availableQuantity - q }
        else t) : TicketTier).id = t.id := by
    intro t; by_cases h : (t.id == tid) = true <;> simp [h]
  constructor
  · rw [htiers, map_tierID_update _ _ hgid]
    exact hI.tierIdsNodup
  · rw [htiers]
    intro t' ht'
    obtain ⟨t, htm, rfl⟩ := List.mem_map.mp ht'
    by_cases hc : (t.id == tid) = true
    · have hteq : t = tier := by
        apply tier_eq_of_nodup_ids hI.tierIdsNodup htm htmem
        rw [htid]; simpa using hc
      subst hteq
      simp only [hc, if_pos]
      omega
    · simp only [hc, if_neg, Bool.false_eq_true, not_false_iff, ite_false]
      exact hI.availNonneg t htm
  · rw [htiers, hres]
    intro t' ht'
    obtain ⟨t, htm, rfl⟩ := List.mem_map.mp ht'
    have hrt : r.tierID = tid := by rw [hreq]
    have hrq : r.quantity = q := by rw [hreq]
    have hle := hI.availHeldLe t htm
    rw [sumQty_append, sumQty_cons, sumQty_nil]
    by_cases hc : (t.id == tid) = true
    · have ht2 : t.id = tid := by simpa using hc
      have hsame : (r.tierID ==
          (({ t with availableQuantity := t.availableQuantity - q }) : TicketTier).id) = true := by
        simp [hrt, ht2]
      simp only [hc, if_pos, hsame, hrq]
      omega
    · have hdiff : (r.tierID == t.id) = false := by
        simp only [hrt, beq_eq_false_iff_ne, ne_eq]
        intro he
        apply hc
        simp [he]
      simp only [hc, Bool.false_eq_true, not_false_iff, ite_false, hdiff]
      omega
  · rw [hres]
    intro x hx
    rcases List.mem_append.mp hx with hold | hnew
    · exact hI.resQtyPos x hold
    · have : x = r := by simpa using hnew
      subst this
      rw [hreq]
      exact hq
  · rw [hres, List.map_append]
    rw [List.nodup_append]
    refine ⟨hI.resIdsNodup, by simp, ?_⟩
    intro a ha hb
    have hbr : a = r.reservationID := by simpa using hb
    have : a < st.nextID := by
      obtain ⟨x, hxm, rfl⟩ := List.mem_map.mp ha
      exact hI.resIdsLt x hxm
    rw [hbr, hreq] at this
    simp at this
  · rw [hres, hnext]
    intro x hx
    rcases List.mem_append.mp hx with hold | hnew
    · exact lt_trans (hI.resIdsLt x hold) (by omega)
    · have : x = r := by simpa using hnew
      subst this
      rw [hreq]
      simp

lemma inv_releaseRes {st : DBState} {rid : Nat} {st' : DBState} (hI : Inv st)
    (hs : deleteReservation st rid = .ok st') : Inv st' := by
  obtain ⟨r, hget, hmem, hid, htiers, hres, hnext⟩ := deleteReservation_ok_inv hs
  have hq : 1 ≤ r.quantity := hI.resQtyPos r hmem
  have hgid : ∀ t : TicketTier,
      ((if t.id == r.tierID then
          { t with availableQuantity := t.availableQuantity + r.quantity }
        else t) : TicketTier).id = t.id := by
    intro t; by_cases h : (t.id == r.tierID) = true <;> simp [h]
  have hheld : ∀ tid : Nat,
      sumQty tid (st.reservations.filter (fun x => x.reservationID != rid)) =
        sumQty tid st.reservations -
          (if r.tierID == tid then r.quantity else 0) :=
    fun tid => sumQty_filter_ne tid rid st.reservations r hI.resIdsNodup hmem hid
  constructor
  · rw [htiers, map_tierID_update _ _ hgid]
    exact hI.tierIdsNodup
  · rw [htiers]
    intro t' ht'
    obtain ⟨t, htm, rfl⟩ := List.mem_map.mp ht'
    have h0 := hI.availNonneg t htm
    by_cases hc : (t.id == r.tierID) = true
    · simp only [hc, if_pos]
      omega
    · simp only [hc, Bool.false_eq_true, not_false_iff, ite_false]
      exact h0
  · rw [htiers, hres]
    intro t' ht'
    obtain ⟨t, htm, rfl⟩ := List.mem_map.mp ht'
    have hle := hI.availHeldLe t htm
    by_cases hc : (t.id == r.tierID) = true
    · have ht2 : t.id = r.tierID := by simpa using hc
      have hrec : ((({ t with
          availableQuantity := t.availableQuantity + r.quantity }) : TicketTier).id) = t.id := rfl
      simp only [hc, if_pos, hrec, hheld t.id]
      have : (r.tierID == t.id) = true := by simp [ht2]
      simp only [this, if_pos]
      omega
    · have ht2 : r.tierID ≠ t.id := by
        intro he
        apply hc
        simp [he]
      simp only [hc, Bool.false_eq_true, not_false_iff, ite_false, hheld t.id]
      have : (r.tierID == t.id) = false := by simpa using ht2
      simp only [this, Bool.false_eq_true, if_neg, ite_false]
      omega
  · rw [hres]
    intro x hx
    exact hI.resQtyPos x (List.mem_of_mem_filter hx)
  · rw [hres]
    exact hI.resIdsNodup.sublist ((List.filter_sublist st.reservations).map _)
  · rw [hres, hnext]
    intro x hx
    exact hI.resIdsLt x (List.mem_of_mem_filter hx)

lemma inv_expire {st : DBState} (now : Nat) (hI : Inv st) :
    Inv (expireReservations st now) := by
  have hq : ∀ x ∈ st.reservations, (0:Int) ≤ x.quantity := by
    intro x hx
    have := hI.resQtyPos x hx
    omega
  constructor
  · exact hI.tierIdsNodup
  · exact hI.availNonneg
  · intro t htm
    have hle := hI.availHeldLe t htm
    have hfl := sumQty_filter_le t.id st.reservations
      (fun r => decide (now < r.expiresAt)) hq
    simp only [expireReservations] at *
    omega
  · intro x hx
    exact hI.resQtyPos x (List.mem_of_mem_filter hx)
  · exact hI.resIdsNodup.sublist ((List.filter_sublist st.reservations).map _)
  · intro x hx
    exact hI.resIdsLt x (List.mem_of_mem_filter hx)

lemma createTicketsFromOrder_frame {st : DBState} {oid tid uid : Nat} {q : Nat}
    {dbOk : Bool} {ts : List Ticket} {st' : DBState}
    (hs : createTicketsFromOrder st oid tid uid q dbOk = .ok (ts, st')) :
    st'.tiers = st.tiers ∧ st'.reservations = st.reservations ∧
      st.nextID ≤ st'.nextID := by
  unfold createTicketsFromOrder at hs
  split_ifs at hs
  simp only [Except.ok.injEq, Prod.mk.injEq] at hs
  obtain ⟨-, hst⟩ := hs
  subst hst
  exact ⟨rfl, rfl, by simp⟩

lemma processOrderPayment_frame {st : DBState} {oid : Nat} {now : Nat}
    {st' : DBState} (hs : processOrderPayment st oid now = .ok st') :
    st'.tiers = st.tiers ∧ st'.reservations = st.reservations ∧
      st.nextID ≤ st'.nextID := by
  unfold processOrderPayment at hs
  cases hfind : st.orders.find? (fun o => o.id == oid) with
  | none => rw [hfind] at hs; exact absurd hs (by simp)
  | some o =>
    rw [hfind] at hs
    simp only [Except.ok.injEq] at hs
    subst hs
    exact ⟨rfl, rfl, le_refl _⟩

lemma reserveTicketHandler_frame (st : DBState) (uid tid : Nat) (q : Int)
    (now : Nat) :
    (reserveTicketHandler st uid tid q now).2.tiers = st.tiers ∧
      (reserveTicketHandler st uid tid q now).2.reservations = st.reservations ∧
      st.nextID ≤ (reserveTicketHandler st uid tid q now).2.nextID := by
  unfold reserveTicketHandler
  cases st.tiers.find? (fun t => t.id == tid) with
  | none => exact ⟨rfl, rfl, le_refl _⟩
  | some tier =>
    simp only
    split_ifs <;> exact ⟨rfl, rfl, by simp⟩

lemma createOrderHandler_frame (st : DBState) (uid rid : Nat) :
    (createOrderHandler st uid rid).2.tiers = st.tiers ∧
      (createOrderHandler st uid rid).2.reservations = st.reservations ∧
      st.nextID ≤ (createOrderHandler st uid rid).2.nextID := by
  exact ⟨rfl, rfl, by simp [createOrderHandler]⟩

lemma validateQRCodeHandler_frame (st : DBState) (qr eid uid now : Nat) :
    (validateQRCodeHandler st qr eid uid now).2.tiers = st.tiers ∧
      (validateQRCodeHandler st qr eid uid now).2.reservations = st.reservations ∧
      st.nextID ≤ (validateQRCodeHandler st qr eid uid now).2.nextID := by
  unfold validateQRCodeHandler
  cases st.tickets.find? (fun t => t.qrCode == qr) with
  | none => exact ⟨rfl, rfl, le_refl _⟩
  | some tk =>
    simp only
    split_ifs <;> exact ⟨rfl, rfl, le_refl _⟩

lemma checkInTicket_frame (st : DBState) (tk : Ticket) (vid eid now : Nat) :
    (checkInTicket st tk vid eid now).2.tiers = st.tiers ∧
      (checkInTicket st tk vid eid now).2.reservations = st.reservations ∧
      st.nextID ≤ (checkInTicket st tk vid eid now).2.nextID := by
  simp only [checkInTicket]
  split_ifs <;> exact ⟨rfl, rfl, le_refl _⟩

/-- The inductive invariant holds in every reachable state. -/
lemma inv_of_reachable {st : DBState} (h : Reachable st) : Inv st := by
  induction h with
  | init st h =>
    obtain ⟨hres, hnd, hb⟩ := h
    constructor
    · exact hnd
    · intro t htm; exact (hb t htm).1
    · intro t htm; rw [hres]; simpa [sumQty_nil] using (hb t htm).2
    · rw [hres]; intro r hr; cases hr
    · rw [hres]; simp
    · rw [hres]; intro r hr; cases hr
  | createRes st uid tid q now r st' h hq hs ih => exact inv_createRes ih hq hs
  | releaseRes st rid st' h hs ih => exact inv_releaseRes ih hs
  | expire st now h ih => exact inv_expire now ih
  | issueTickets st oid tid uid q dbOk ts st' h hs ih =>
    obtain ⟨h1, h2, h3⟩ := createTicketsFromOrder_frame hs
    exact inv_frame ih h1 h2 h3
  | payOrder st oid now st' h hs ih =>
    obtain ⟨h1, h2, h3⟩ := processOrderPayment_frame hs
    exact inv_frame ih h1 h2 h3
  | orderHandler st uid rid h ih =>
    obtain ⟨h1, h2, h3⟩ := createOrderHandler_frame st uid rid
    exact inv_frame ih h1 h2 h3
  | reserveHandler st uid tid q now h ih =>
    obtain ⟨h1, h2, h3⟩ := reserveTicketHandler_frame st uid tid q now
    exact inv_frame ih h1 h2 h3
  | checkinHandler st qr eid uid now h ih =>
    obtain ⟨h1, h2, h3⟩ := validateQRCodeHandler_frame st qr eid uid now
    exact inv_frame ih h1 h2 h3
  | checkinService st tk vid eid now h ih =>
    obtain ⟨h1, h2, h3⟩ := checkInTicket_frame st tk vid eid now
    exact inv_frame ih h1 h2 h3

lemma find?_tier_map_update (l : List TicketTier) (g : TicketTier → TicketTier)
    (hg : ∀ t, (g t).id = t.id) (tid : Nat) :
    (l.map g).find? (fun t => t.id == tid) =
      (l.find? (fun t => t.id == tid)).map g := by
  induction l with
  | nil => rfl
  | cons a t ih =>
    by_cases h : (a.id == tid) = true
    · simp [List.find?_cons, hg a, h]
    · simp only [List.map_cons, List.find?_cons, hg a]
      rw [Bool.eq_false_iff.mpr h]
      simpa using ih

/-- Fixture for the C1 counterexample: one published event, one tier with
available = total = 1 and no outstanding holds. -/
def tierC1 : TicketTier :=
  { id := 1, eventID := 1, price := 10, totalQuantity := 1,
    availableQuantity := 1, saleStartTime := none, saleEndTime := none }

def stC1 : DBState :=
  { events := [{ id := 1, status := .published }]
    tiers := [tierC1]
    tickets := []
    checkins := []
    orders := []
    payments := []
    reservations := []
    nextID := 100 }

/-- Post-state of the C1 counterexample call. -/
def c1Post : DBState :=
  match createReservation stC1 5 1 (-1) 0 with
  | .ok p => p.2
  | .error e => stC1

/-- C1, counterexample.  The claim quantifies over every integer quantity
argument of CreateReservation, but nothing on that code path bounds the
quantity below: with quantity = -1 against a tier with available = total =
1 the availability test `1 < -1` passes, `available_quantity -= -1` is
saved, and the post-state tier has available_quantity = 2 >
total_quantity = 1, violating `0 <= available_quantity <=
total_quantity`. -/
theorem createReservation_negative_quantity_breaks_bounds :
    (createReservation stC1 5 1 (-1) 0).isOk = true ∧ ¬ tierBounds c1Post := by
  constructor
  · decide
  · unfold tierBounds
    decide

/-- C1, amended: restricted to hold creations with the specification's
`quantity >= 1`, every reachable state keeps every tier within `0 <=
available_quantity <= total_quantity`: holds subtract what they checked,
releases add back exactly what one outstanding ledger entry held, ledger
expiry only forgets holds, and no other operation touches the tier
quantities. -/
theorem tier_quantity_invariant (st : DBState) (h : Reachable st) :
    tierBounds st := by
  have hI := inv_of_reachable h
  intro t htm
  have h0 := hI.availNonneg t htm
  have hle := hI.availHeldLe t htm
  have hq : 0 ≤ sumQty t.id st.reservations := by
    apply sumQty_nonneg
    intro r hr
    have := hI.resQtyPos r hr
    omega
  exact ⟨h0, by omega⟩

/-- Fixture for the C1 witness: admissible initial state with one tier. -/
def tierW1 : TicketTier :=
  { id := 3, eventID := 2, price := 25, totalQuantity := 5,
    availableQuantity := 3, saleStartTime := none, saleEndTime := none }

def stW1 : DBState :=
  { events := [{ id := 2, status := .published }]
    tiers := [tierW1]
    tickets := []
    checkins := []
    orders := []
    payments := []
    reservations := []
    nextID := 10 }

/-- Witness for C1: the invariant theorem applied to a concrete reachable
state. -/
theorem tier_quantity_invariant_witness :
    0 ≤ tierW1.availableQuantity ∧
      tierW1.availableQuantity ≤ tierW1.totalQuantity :=
  tier_quantity_invariant stW1
    (Reachable.init stW1 ⟨rfl, by decide, by decide⟩) tierW1 (by decide)

/-- C2: the CreateHold contract of CreateReservation.  For an existing
tier of a published event: when `available_quantity < quantity` the call
fails with the insufficient-inventory error carrying the available count
(and, the operation being `Except`-valued, produces no state: the Go path
returns before any write); when `available_quantity >= quantity` the call
succeeds, the returned reservation snapshots quantity, unit price and
total price with expiry `now + 15 minutes`, the ledger gains exactly that
entry, and the tier row is saved with available_quantity decremented by
exactly `quantity`. -/
theorem createReservation_contract (st : DBState) (uid tid : Nat) (q : Int)
    (now : Nat) (tier : TicketTier)
    (hfind : st.tiers.find? (fun t => t.id == tid) = some tier)
    (hpub : eventStatusOf st tier.eventID = EventStatus.published) :
    (tier.availableQuantity < q →
      createReservation st uid tid q now =
        .error (.insufficientInventory tier.availableQuantity)) ∧
    (q ≤ tier.availableQuantity →
      (createReservation st uid tid q now).isOk = true ∧
      ∀ r st', createReservation st uid tid q now = .ok (r, st') →
        r.quantity = q ∧ r.tierID = tid ∧ r.userID = uid ∧
        r.unitPrice = tier.price ∧
        r.totalPrice = calculateTotalPrice tier.price q ∧
        r.expiresAt = now + reservationExpirySeconds ∧
        st'.reservations = st.reservations ++ [r] ∧
        st'.tiers.find? (fun t => t.id == tid) =
          some { tier with availableQuantity := tier.availableQuantity - q }) := by
  constructor
  · intro hlt
    unfold createReservation
    rw [hfind]
    simp only
    rw [if_pos hlt]
  · intro hge
    constructor
    · unfold createReservation
      rw [hfind]
      simp only
      rw [if_neg (by omega), if_neg (by simp [hpub])]
      rfl
    · intro r st' hs
      obtain ⟨tier2, hfind2, -, -, hreq, htiers, hres, -, -, -, -, -, -⟩ :=
        createReservation_ok_inv hs
      have hte : tier2 = tier := by
        rw [hfind] at hfind2
        exact (Option.some.inj hfind2).symm
      rw [hte] at hreq
      have htid : tier.id = tid := by
        simpa using List.find?_some hfind
      refine ⟨by rw [hreq], by rw [hreq], by rw [hreq], by rw [hreq],
        by rw [hreq], by rw [hreq], hres, ?_⟩
      rw [htiers, find?_tier_map_update _ _
        (fun t => by by_cases h : (t.id == tid) = true <;> simp [h]) tid, hfind]
      simp [htid]

/-- Fixture for the C2 witness. -/
def tierW2 : TicketTier :=
  { id := 1, eventID := 1, price := 50, totalQuantity := 5,
    availableQuantity := 5, saleStartTime := none, saleEndTime := none }

def stW2 : DBState :=
  { events := [{ id := 1, status := .published }]
    tiers := [tierW2]
    tickets := []
    checkins := []
    orders := []
    payments := []
    reservations := []
    nextID := 7 }

/-- Witness for C2: the contract applied at a concrete state where 2 of 5
tickets are requested. -/
theorem createReservation_contract_witness :
    (createReservation stW2 1 1 2 0).isOk = true :=
  ((createReservation_contract stW2 1 1 2 0 tierW2 (by decide)
    (by decide)).2 (by decide)).1

/-!
Interleaving model for the concurrent check-in claim.  A run of
ValidateQRCodeHandler performs two separate store operations
(cmd/api/handlers.go lines 894-916):
  1. SELECT the ticket by qr_code and run the status checks in memory;
  2. UPDATE the ticket row to status used with an unconditional Save,
     then INSERT the check-in row, discarding the insert error.
Two concurrent invocations against the same active ticket of the correct
event are modelled as two processes, each advancing through these two
atomic store operations under an explicit schedule.  The unique index on
checkins.ticket_id caps the row count at one; a rejected insert still
reports success because the handler ignores the Create error.
-/

/-- Progress of one concurrent handler invocation. -/
inductive ScanPhase
  | ready
  | validated
  | finished (result : CheckinResult)
  deriving DecidableEq

/-- Shared ticket row and check-in table plus the two processes. -/
structure ScanState where
  ticketStatus : TicketStatus
  checkinRows : Nat
  procA : ScanPhase
  procB : ScanPhase
  deriving DecidableEq

/-- One atomic store operation of one invocation: the read-and-check step,
or the write step (unconditional status Save plus insert with the error
discarded). -/
def scanStep (status : TicketStatus) (rows : Nat) (ph : ScanPhase) :
    TicketStatus × Nat × ScanPhase :=
  match ph with
  | .ready =>
    if status = TicketStatus.used then (status, rows, .finished .alreadyUsed)
    else if status ≠ TicketStatus.active then
      (status, rows, .finished (.notActive status))
    else (status, rows, .validated)
  | .validated =>
    (TicketStatus.used, if rows == 0 then 1 else rows, .finished .success)
  | .finished r => (status, rows, .finished r)

/-- Advance process A (true) or B (false) by one store operation. -/
def schedStep (s : ScanState) (who : Bool) : ScanState :=
  if who then
    match scanStep s.ticketStatus s.checkinRows s.procA with
    | (st2, rows2, ph2) =>
      { s with ticketStatus := st2, checkinRows := rows2, procA := ph2 }
  else
    match scanStep s.ticketStatus s.checkinRows s.procB with
    | (st2, rows2, ph2) =>
      { s with ticketStatus := st2, checkinRows := rows2, procB := ph2 }

/-- Run a schedule, one store operation at a time. -/
def runSchedule (s : ScanState) : List Bool → ScanState
  | [] => s
  | w :: ws => runSchedule (schedStep s w) ws

/-- C3.  Evidence against the claim: the status transition is a read of
the status followed by a separate unconditional write, not a compare-and-
set, so under the schedule where both invocations pass validation before
either writes (A reads, B reads, A writes, B writes) BOTH invocations
finish with success — the losing call does not observe AlreadyUsed.  The
unique index keeps the check-in table at one row, but the handler
discards that insert error.  Run sequentially (A reads, A writes, B
reads, B writes) the model does yield exactly one success and one
AlreadyUsed, confirming that only the concurrent claim fails. -/
theorem concurrent_scans_both_succeed :
    runSchedule ⟨TicketStatus.active, 0, .ready, .ready⟩
        [true, false, true, false] =
      ⟨TicketStatus.used, 1, .finished .success, .finished .success⟩ ∧
    runSchedule ⟨TicketStatus.active, 0, .ready, .ready⟩
        [true, true, false, false] =
      ⟨TicketStatus.used, 1, .finished .success, .finished .alreadyUsed⟩ := by
  constructor
  · decide
  · decide

/-- Fixture for C4: a tier with available 3 of 5 and one outstanding hold
of quantity 2, ledger entry 7. -/
def tierC4 : TicketTier :=
  { id := 1, eventID := 1, price := 10, totalQuantity := 5,
    availableQuantity := 3, saleStartTime := none, saleEndTime := none }

def resC4 : ReservationData :=
  { reservationID := 7, userID := 2, tierID := 1, eventID := 1, quantity := 2,
    unitPrice := 10, totalPrice := 20, expiresAt := 900, createdAt := 0 }

def stC4 : DBState :=
  { events := [{ id := 1, status := .published }]
    tiers := [tierC4]
    tickets := []
    checkins := []
    orders := []
    payments := []
    reservations := [resC4]
    nextID := 8 }

/-- State after the first release of reservation 7. -/
def c4Mid : DBState :=
  match deleteReservation stC4 7 with
  | .ok s => s
  | .error _ => stC4

/-- C4, counterexample.  The claim calls release of an already-released
reservation "a no-op that does not signal an error", but DeleteReservation
returns GetReservation's not-found error (`return err // Already expired
or not found`, ticket_service.go line 112): the second call on the same
id signals reservationNotFound instead of succeeding silently.  The
inventory effect does happen exactly once (3 back to 5). -/
theorem deleteReservation_second_call_signals_error :
    (deleteReservation stC4 7).isOk = true ∧
    c4Mid.tiers.map TicketTier.availableQuantity = [5] ∧
    deleteReservation c4Mid 7 = .error .reservationNotFound := by
  refine ⟨by decide, by decide, by decide⟩

lemma find?_filter_ne (l : List ReservationData) (rid : Nat) :
    (l.filter (fun x => x.reservationID != rid)).find?
      (fun x => x.reservationID == rid) = none := by
  apply List.find?_eq_none.mpr
  intro x hx
  have hm := List.mem_filter.mp hx
  simpa using hm.2

/-- C4, amended: releasing a reservation increments the tier back at most
once — a successful DeleteReservation removes the ledger entry, so any
further DeleteReservation on the same id fails with the not-found error
and (the operation being `Except`-valued) performs no inventory mutation;
likewise DeleteReservation on an id absent from the ledger propagates the
not-found error without mutating anything.  The deviation from the claim
is only that the no-op case signals an error instead of returning
success. -/
theorem deleteReservation_increments_at_most_once (st st' : DBState)
    (rid : Nat) (h : deleteReservation st rid = .ok st') :
    deleteReservation st' rid = .error .reservationNotFound ∧
    ∀ rid2, getReservation st rid2 = .error .reservationNotFound →
      deleteReservation st rid2 = .error .reservationNotFound := by
  constructor
  · obtain ⟨r, hget, hmem, hid, htiers, hres, hnext⟩ := deleteReservation_ok_inv h
    unfold deleteReservation getReservation
    rw [hres, find?_filter_ne]
  · intro rid2 hget2
    unfold deleteReservation
    rw [hget2]

/-- Witness for C4: the amended theorem applied to the concrete
double-release fixture. -/
theorem deleteReservation_increments_at_most_once_witness :
    deleteReservation c4Mid 7 = .error .reservationNotFound ∧
    ∀ rid2, getReservation stC4 rid2 = .error .reservationNotFound →
      deleteReservation stC4 rid2 = .error .reservationNotFound :=
  deleteReservation_increments_at_most_once stC4 c4Mid 7 (by decide)

/-- Fixture for C5: published event, tier with 3 of 5 available, one
outstanding hold of quantity 2 under ledger id 7. -/
def tierC5 : TicketTier :=
  { id := 1, eventID := 1, price := 10, totalQuantity := 5,
    availableQuantity := 3, saleStartTime := none, saleEndTime := none }

def resC5 : ReservationData :=
  { reservationID := 7, userID := 4, tierID := 1, eventID := 1, quantity := 2,
    unitPrice := 10, totalPrice := 20, expiresAt := 900, createdAt := 0 }

def stC5 : DBState :=
  { events := [{ id := 1, status := .published }]
    tiers := [tierC5]
    tickets := []
    checkins := []
    orders := []
    payments := []
    reservations := [resC5]
    nextID := 10 }

/-- State after CreateOrderHandler "converts" reservation 7 (order id 10). -/
def c5AfterOrder : DBState := (createOrderHandler stC5 4 7).2

/-- State after ProcessOrderPayment marks order 10 paid. -/
def c5AfterPayment : DBState :=
  match processOrderPayment c5AfterOrder 10 300 with
  | .ok s => s
  | .error _ => c5AfterOrder

/-- State after a subsequent release of the supposedly consumed hold. -/
def c5AfterRelease : DBState :=
  match deleteReservation c5AfterPayment 7 with
  | .ok s => s
  | .error _ => c5AfterPayment

/-- C5, evidence of the code bug.  The conversion path never consumes the
ledger entry: CreateOrderHandler ignores the reservation_id it receives
(`In a real app, validate reservation from cache`, handlers.go line 786)
and ProcessOrderPayment only flips the order to paid and records a
payment.  After a paid conversion the ledger entry for id 7 is still
readable, a further ReleaseHold SUCCEEDS instead of yielding
ReservationNotFound, and it mutates inventory again — available_quantity
climbs from 3 to 5 even though the sold hold was never returned. -/
theorem order_payment_does_not_consume_reservation :
    (processOrderPayment c5AfterOrder 10 300).isOk = true ∧
    getReservation c5AfterPayment 7 = .ok resC5 ∧
    (deleteReservation c5AfterPayment 7).isOk = true ∧
    c5AfterRelease.tiers.map TicketTier.availableQuantity = [5] := by
  refine ⟨by decide, by decide, by decide, by decide⟩

/-- Fixture for C6: one active ticket with scan code 42 on tier 1 of
published event 1, no check-in rows. -/
def tierC6 : TicketTier :=
  { id := 1, eventID := 1, price := 10, totalQuantity := 5,
    availableQuantity := 4, saleStartTime := none, saleEndTime := none }

def ticketC6 : Ticket :=
  { id := 20, tierID := 1, orderID := 30, ownerID := 40, qrCode := 42,
    status := .active, checkedInAt := none }

def stC6 : DBState :=
  { events := [{ id := 1, status := .published }]
    tiers := [tierC6]
    tickets := [ticketC6]
    checkins := []
    orders := []
    payments := []
    reservations := []
    nextID := 50 }

/-- C6, evidence of the code bug.  The check-in route
(ValidateQRCodeHandler) sets the ticket status to used and saves it but
never assigns CheckedInAt (handlers.go lines 904-906), so the reachable
post-state has status = used with checked_in_at null, violating the
claimed "checked_in_at is set if and only if status is used".  The
service-layer CheckInTicket — which no route calls — does stamp both
fields together, showing the handler omission is a slip rather than a
design choice. -/
theorem handler_checkin_sets_used_without_timestamp :
    (validateQRCodeHandler stC6 42 1 9 500).1 = .success ∧
    (validateQRCodeHandler stC6 42 1 9 500).2.tickets.map
        (fun t => (t.status, t.checkedInAt)) = [(.used, none)] ∧
    (checkInTicket stC6 ticketC6 9 1 500).2.tickets.map
        (fun t => (t.status, t.checkedInAt)) = [(.used, some 500)] := by
  refine ⟨by decide, by decide, by decide⟩

lemma find?_ticket_map_update (l : List Ticket) (g : Ticket → Ticket)
    (hg : ∀ t, (g t).qrCode = t.qrCode) (qr : Nat) :
    (l.map g).find? (fun t => t.qrCode == qr) =
      (l.find? (fun t => t.qrCode == qr)).map g := by
  induction l with
  | nil => rfl
  | cons a t ih =>
    by_cases h : (a.qrCode == qr) = true
    · simp [List.find?_cons, hg a, h]
    · simp only [List.map_cons, List.find?_cons, hg a]
      rw [Bool.eq_false_iff.mpr h]
      simpa using ih

/-- C7: the sequential check-in outcome taxonomy, stated for both
implementations of the four checks — the service ValidateTicketForCheckin
and the route ValidateQRCodeHandler — which branch identically, and the
double-scan scenario on the route: an unknown code yields InvalidCode; a
ticket of another event yields WrongEvent; a used ticket yields
AlreadyUsed; a ticket in any remaining non-active status yields NotActive
carrying that status, with the checks performed in exactly that order; and
on an active ticket the first call succeeds creating exactly one Checkin
row for it while the immediately following call (at any later time)
returns AlreadyUsed leaving the state — hence the Checkin table —
untouched. -/
theorem checkin_taxonomy_and_double_scan (st : DBState) (qr eid uid now : Nat) :
    (st.tickets.find? (fun t => t.qrCode == qr) = none →
      validateTicketForCheckin st qr eid = .error .invalidCode ∧
      validateQRCodeHandler st qr eid uid now = (.invalidCode, st)) ∧
    (∀ tk, st.tickets.find? (fun t => t.qrCode == qr) = some tk →
      (tierEventIDOf st tk.tierID ≠ eid →
        validateTicketForCheckin st qr eid = .error .wrongEvent ∧
        validateQRCodeHandler st qr eid uid now = (.wrongEvent, st)) ∧
      (tierEventIDOf st tk.tierID = eid → tk.status = TicketStatus.used →
        validateTicketForCheckin st qr eid = .error .alreadyUsed ∧
        validateQRCodeHandler st qr eid uid now = (.alreadyUsed, st)) ∧
      (tierEventIDOf st tk.tierID = eid → tk.status ≠ TicketStatus.used →
        tk.status ≠ TicketStatus.active →
        validateTicketForCheckin st qr eid = .error (.notActive tk.status) ∧
        validateQRCodeHandler st qr eid uid now = (.notActive tk.status, st)) ∧
      (tierEventIDOf st tk.tierID = eid → tk.status = TicketStatus.active →
        st.checkins.any (fun c => c.ticketID == tk.id) = false →
        (validateQRCodeHandler st qr eid uid now).1 = .success ∧
        checkinCount (validateQRCodeHandler st qr eid uid now).2 tk.id =
          checkinCount st tk.id + 1 ∧
        ∀ now2, validateQRCodeHandler
            (validateQRCodeHandler st qr eid uid now).2 qr eid uid now2 =
          (.alreadyUsed, (validateQRCodeHandler st qr eid uid now).2))) := by
  constructor
  · intro hnone
    constructor
    · unfold validateTicketForCheckin
      rw [hnone]
    · unfold validateQRCodeHandler
      rw [hnone]
  · intro tk hfind
    refine ⟨?_, ?_, ?_, ?_⟩
    · intro hev
      constructor
      · unfold validateTicketForCheckin
        rw [hfind]
        simp only
        rw [if_pos hev]
      · unfold validateQRCodeHandler
        rw [hfind]
        simp only
        rw [if_pos hev]
    · intro hev hused
      constructor
      · unfold validateTicketForCheckin
        rw [hfind]
        simp only
        rw [if_neg (by simp [hev]), if_pos hused]
      · unfold validateQRCodeHandler
        rw [hfind]
        simp only
        rw [if_neg (by simp [hev]), if_pos hused]
    · intro hev hnu hna
      constructor
      · unfold validateTicketForCheckin
        rw [hfind]
        simp only
        rw [if_neg (by simp [hev]), if_neg hnu, if_pos hna]
      · unfold validateQRCodeHandler
        rw [hfind]
        simp only
        rw [if_neg (by simp [hev]), if_neg hnu, if_pos hna]
    · intro hev hact hchk
      have heq : validateQRCodeHandler st qr eid uid now =
          (.success,
           { st with
               tickets := st.tickets.map (fun t =>
                 if t.id == tk.id then { t with status := TicketStatus.used }
                 else t)
               checkins := st.checkins ++
                 [{ ticketID := tk.id, eventID := eid, scannedBy := uid,
                    scannedAt := now }] }) := by
        unfold validateQRCodeHandler
        rw [hfind]
        simp only
        rw [if_neg (by simp [hev]), if_neg (by simp [hact]),
          if_neg (by simp [hact])]
        rw [if_neg (by simp [hchk])]
      refine ⟨by rw [heq], ?_, ?_⟩
      · rw [heq]
        unfold checkinCount
        simp only [List.filter_append, List.length_append]
        have : (List.filter (fun c => c.ticketID == tk.id)
            [({ ticketID := tk.id, eventID := eid, scannedBy := uid,
                scannedAt := now } : Checkin)]).length = 1 := by
          simp [List.filter_cons]
        rw [this]
      · intro now2
        rw [heq]
        unfold validateQRCodeHandler
        rw [show ({ st with
               tickets := st.tickets.map (fun t =>
                 if t.id == tk.id then { t with status := TicketStatus.used }
                 else t)
               checkins := st.checkins ++
                 [{ ticketID := tk.id, eventID := eid, scannedBy := uid,
                    scannedAt := now }] } : DBState).tickets =
            st.tickets.map (fun t =>
              if t.id == tk.id then { t with status := TicketStatus.used }
              else t) from rfl]
        rw [find?_ticket_map_update _ _
          (fun t => by by_cases h : (t.id == tk.id) = true <;> simp [h]) qr,
          hfind]
        simp only [Option.map]
        rw [show ((if tk.id == tk.id then
            { tk with status := TicketStatus.used } else tk) : Ticket) =
            { tk with status := TicketStatus.used } from by simp]
        simp only
        rw [if_neg (by simpa using hev)]
        simp

/-- Fixture for the C7 witness: one active ticket, scan code 42, event 1. -/
def tierW7 : TicketTier :=
  { id := 6, eventID := 1, price := 10, totalQuantity := 5,
    availableQuantity := 4, saleStartTime := none, saleEndTime := none }

def ticketW7 : Ticket :=
  { id := 21, tierID := 6, orderID := 31, ownerID := 41, qrCode := 42,
    status := .active, checkedInAt := none }

def stW7 : DBState :=
  { events := [{ id := 1, status := .published }]
    tiers := [tierW7]
    tickets := [ticketW7]
    checkins := []
    orders := []
    payments := []
    reservations := []
    nextID := 60 }

/-- Witness for C7: first scan succeeds, second scan of the same code
returns AlreadyUsed with the state unchanged. -/
theorem checkin_taxonomy_and_double_scan_witness :
    (validateQRCodeHandler stW7 42 1 9 100).1 = .success ∧
    validateQRCodeHandler (validateQRCodeHandler stW7 42 1 9 100).2 42 1 9 200 =
      (.alreadyUsed, (validateQRCodeHandler stW7 42 1 9 100).2) := by
  have h := (((checkin_taxonomy_and_double_scan stW7 42 1 9 100).2 ticketW7
    (by decide)).2.2.2) (by decide) (by decide) (by decide)
  exact ⟨h.1, h.2.2 200⟩

/-- Fixture for C8: a tier whose sale window opens at time 1000, fully
stocked, on a published event; the call happens at time 10. -/
def tierC8 : TicketTier :=
  { id := 1, eventID := 1, price := 10, totalQuantity := 5,
    availableQuantity := 5, saleStartTime := some 1000,
    saleEndTime := some 2000 }

def stC8 : DBState :=
  { events := [{ id := 1, status := .published }]
    tiers := [tierC8]
    tickets := []
    checkins := []
    orders := []
    payments := []
    reservations := []
    nextID := 70 }

/-- Post-state of the C8 call. -/
def c8Post : DBState :=
  match createReservation stC8 1 1 1 10 with
  | .ok p => p.2
  | .error e => stC8

/-- C8, evidence of the code bug.  At time 10 the tier's sale window (1000
to 2000) has not started — TicketTier.IsAvailable, the model's own
sale-window predicate, returns false — yet CreateReservation never
consults the sale window (its only checks are tier existence, available
quantity and event status, ticket_service.go 40-56): the hold SUCCEEDS
and available_quantity drops from 5 to 4, where the claim requires
TierUnavailable with available_quantity unchanged. -/
theorem createReservation_ignores_sale_window :
    TicketTier.isAvailable tierC8 10 = false ∧
    (createReservation stC8 1 1 1 10).isOk = true ∧
    c8Post.tiers.map TicketTier.availableQuantity = [4] := by
  refine ⟨by decide, by decide, by decide⟩

/-- C9: the ticket-issuance contract of CreateTicketsFromOrder.  For
quantity >= 1, with the one batch insert failing (`dbOk = false`) the call
errors and — the operation being `Except`-valued over the single
transactional store call — persists none of the tickets; on success it
returns exactly `quantity` tickets, each active, linked to the given
order, tier and owner, with pairwise-distinct scan codes all fresh
(at or above the generator counter, hence distinct from every previously
issued code, which sits below it), the store gains exactly those rows and
no other table is touched. -/
theorem createTicketsFromOrder_spec (st : DBState) (orderID tierID userID : Nat)
    (q : Nat) (dbOk : Bool) (hq : 1 ≤ q) :
    (createTicketsFromOrder st orderID tierID userID q false =
      .error .createFailed) ∧
    (∀ ts st', createTicketsFromOrder st orderID tierID userID q dbOk =
        .ok (ts, st') →
      ts.length = q ∧
      (∀ tk ∈ ts, tk.status = TicketStatus.active ∧ tk.orderID = orderID ∧
        tk.tierID = tierID ∧ tk.ownerID = userID) ∧
      (ts.map Ticket.qrCode).Nodup ∧
      (∀ tk ∈ ts, st.nextID ≤ tk.qrCode) ∧
      st'.tickets = st.tickets ++ ts ∧
      st'.tiers = st.tiers ∧ st'.reservations = st.reservations ∧
      st'.checkins = st.checkins ∧ st'.orders = st.orders) := by
  constructor
  · rfl
  · intro ts st' hs
    unfold createTicketsFromOrder at hs
    split_ifs at hs
    simp only [Except.ok.injEq, Prod.mk.injEq] at hs
    obtain ⟨hts, hst⟩ := hs
    subst hst
    refine ⟨?_, ?_, ?_, ?_, by rw [hts], rfl, rfl, rfl, rfl⟩
    · rw [← hts]
      simp
    · intro tk htk
      rw [← hts] at htk
      obtain ⟨i, hi, rfl⟩ := List.mem_map.mp htk
      exact ⟨rfl, rfl, rfl, rfl⟩
    · rw [← hts, List.map_map]
      have : (Ticket.qrCode ∘ fun i =>
          ({ id := st.nextID + i, tierID := tierID, orderID := orderID,
             ownerID := userID, qrCode := generateQRCode (st.nextID + i),
             status := TicketStatus.active, checkedInAt := none } : Ticket)) =
          fun i => st.nextID + i := rfl
      rw [this]
      exact List.Nodup.map (fun a b h => by omega) (List.nodup_range _)
    · intro tk htk
      rw [← hts] at htk
      obtain ⟨i, hi, rfl⟩ := List.mem_map.mp htk
      simp [generateQRCode]

/-- Fixture for the C9 witness. -/
def stW9 : DBState :=
  { events := [{ id := 1, status := .published }]
    tiers := []
    tickets := []
    checkins := []
    orders := []
    payments := []
    reservations := []
    nextID := 20 }

/-- Tickets issued by the witness call (order 11, tier 1, owner 4,
quantity 2). -/
def c9Tickets : List Ticket :=
  match createTicketsFromOrder stW9 11 1 4 2 true with
  | .ok p => p.1
  | .error e => []

def c9Post : DBState :=
  match createTicketsFromOrder stW9 11 1 4 2 true with
  | .ok p => p.2
  | .error e => stW9

/-- Witness for C9: the issuance contract at quantity 2. -/
theorem createTicketsFromOrder_spec_witness :
    c9Tickets.length = 2 ∧ (c9Tickets.map Ticket.qrCode).Nodup :=
  have h := (createTicketsFromOrder_spec stW9 11 1 4 2 true (by decide)).2
    c9Tickets c9Post (by decide)
  ⟨h.1, h.2.2.1⟩

/-- C10: the implicit frame-and-bug property of ReserveTicketHandler.  On
every execution path the handler leaves the tier table and the reservation
ledger exactly as they were — its success path only mints a fresh id — and
because line 687 computes `available := TotalQuantity - TotalQuantity -
AvailableQuantity`, i.e. the negation of AvailableQuantity, every request
with quantity >= 1 against a tier with non-negative availability fails the
`available < quantity` test and returns the bad-request response carrying
that negated count. -/
theorem reserveTicketHandler_no_store_mutation (st : DBState) (uid tid : Nat)
    (q : Int) (now : Nat) :
    (reserveTicketHandler st uid tid q now).2.tiers = st.tiers ∧
    (reserveTicketHandler st uid tid q now).2.reservations = st.reservations ∧
    (∀ tier, st.tiers.find? (fun t => t.id == tid) = some tier →
      tier.totalQuantity - tier.totalQuantity - tier.availableQuantity =
        -tier.availableQuantity ∧
      (0 ≤ tier.availableQuantity → 1 ≤ q →
        reserveTicketHandler st uid tid q now =
          (.unavailable (tier.totalQuantity - tier.totalQuantity -
            tier.availableQuantity), st))) := by
  obtain ⟨h1, h2, -⟩ := reserveTicketHandler_frame st uid tid q now
  refine ⟨h1, h2, ?_⟩
  intro tier hfind
  refine ⟨by ring, ?_⟩
  intro hnn hq
  unfold reserveTicketHandler
  rw [hfind]
  simp only
  rw [if_pos (by omega)]

/-- Fixture for the C10 witness: tier with 4 of 9 available. -/
def tierW10 : TicketTier :=
  { id := 1, eventID := 1, price := 10, totalQuantity := 9,
    availableQuantity := 4, saleStartTime := none, saleEndTime := none }

def stW10 : DBState :=
  { events := [{ id := 1, status := .published }]
    tiers := [tierW10]
    tickets := []
    checkins := []
    orders := []
    payments := []
    reservations := []
    nextID := 80 }

/-- Witness for C10: a two-ticket request against 4 available tickets is
rejected with the negated availability, stores untouched. -/
theorem reserveTicketHandler_no_store_mutation_witness :
    reserveTicketHandler stW10 1 1 2 0 = (.unavailable (-4), stW10) := by
  have h := ((reserveTicketHandler_no_store_mutation stW10 1 1 2 0).2.2
    tierW10 (by decide)).2 (by decide) (by decide)
  simpa using h

end Eventix
